import Mathlib

/-!
Shallow embedding of src/weekly_digest.py, the weekly market brief pipeline:
the retrying HTTP fetcher get_with_retry, the batched quote client yf_quotes
(deduplication, query construction, response parsing), the news client
news_for, the line renderer fmt_line, the optional summarizer ai_summarize,
and the report composition and output budgeting of main.

Network and environment effects are modelled by passing the outcome of each
outbound call in explicitly.  Python strings are Lean strings: Python len and
slicing count code points, as do String.length and the data-list slicing used
here.  JSON numbers are carried as Float (Python floats are doubles); their
decimal rendering is modelled by str_float and fmt_plus_2f below, and no
theorem depends on the digits those produce, only on the shape of the
rendered line.
-/

/-- Python `a or b` on optional strings: None and the empty string are
falsy, everything else is returned unchanged. -/
def py_or (a b : Option String) : Option String :=
  match a with
  | none => b
  | some s => if s = "" then b else some s

/-- An HTTP response as observed by requests.get: status code and body. -/
structure HResp where
  status : Nat
  body : String
  deriving DecidableEq

/-- An exception arising inside one attempt of get_with_retry: either
requests.get itself raised (network error, timeout), or
Response.raise_for_status raised HTTPError on a 4xx or 5xx status. -/
inductive PyExc where
  | netError (msg : String)
  | httpError (status : Nat)
  deriving DecidableEq

/-- The observable outcome of one requests.get call: it raised, or it
returned a response. -/
inductive Attempt where
  | raises (e : PyExc)
  | resp (r : HResp)
  deriving DecidableEq

/-- The status code of an attempt, when it returned a response. -/
def attempt_status : Attempt → Option Nat
  | .raises _ => none
  | .resp r => some r.status

/-- What get_with_retry does overall: return a response, or raise.
`raised (some e)` models `raise last_exc` re-raising the last recorded
exception e; `raised none` models reaching `raise last_exc` while last_exc
is still None, which in Python raises a TypeError carrying no cause. -/
inductive FetchResult where
  | success (r : HResp)
  | raised (lastExc : Option PyExc)
  deriving DecidableEq

/-- The retry loop of get_with_retry, sleeps dropped.  `i` is the index of
the next attempt, `n` the number of attempts remaining, `lastExc` the Python
variable last_exc.  Mirrors the source loop body: a 429 status sleeps and
continues without touching last_exc; raise_for_status raises exactly when
400 ≤ status, recording the HTTPError; any raised exception is recorded and
the loop continues; any other response is returned. -/
def retry_loop (attempts : Nat → Attempt) : Option PyExc → Nat → Nat → FetchResult
  | lastExc, _, 0 => .raised lastExc
  | lastExc, i, n + 1 =>
    match attempts i with
    | .raises e => retry_loop attempts (some e) (i + 1) n
    | .resp r =>
      if r.status = 429 then retry_loop attempts lastExc (i + 1) n
      else if 400 ≤ r.status then retry_loop attempts (some (.httpError r.status)) (i + 1) n
      else .success r

/-- The max_tries default of get_with_retry. -/
def max_tries : Nat := 6

/-- get_with_retry(url): run up to max_tries attempts, then
`raise last_exc`. -/
def get_with_retry (attempts : Nat → Attempt) : FetchResult :=
  retry_loop attempts none 0 max_tries

/-- The list comprehension at the top of yf_quotes:
`[s for s in symbols if s and not (s in seen or seen.add(s))]` —
drop falsy (empty) strings, and drop symbols already seen. -/
def dedup_aux (seen : List String) : List String → List String
  | [] => []
  | s :: rest =>
    if s = "" then dedup_aux seen rest
    else if s ∈ seen then dedup_aux seen rest
    else s :: dedup_aux (s :: seen) rest

/-- The deduplicated symbol list of yf_quotes (seen starts empty). -/
def dedup_symbols (symbols : List String) : List String :=
  dedup_aux [] symbols

/-- The `symbols=` query parameter of the one batched Yahoo request:
`",".join(symbols)` applied after the comprehension above. -/
def batch_query (symbols : List String) : String :=
  String.intercalate "," (dedup_symbols symbols)

/-- One entry of the quoteResponse.result list of the response body; every
JSON field is individually optional, since `q.get(...)` yields None when a
key is absent. -/
structure RawQuote where
  symbol : Option String
  shortName : Option String
  longName : Option String
  regularMarketPrice : Option Float
  regularMarketChange : Option Float
  regularMarketChangePercent : Option Float
  currency : Option String

/-- The per-symbol dict that yf_quotes builds for one result entry. -/
structure Quote where
  symbol : Option String
  name : Option String
  price : Option Float
  change : Option Float
  change_pct : Option Float
  currency : Option String

/-- The dict built for one entry q of the result list. -/
def mk_quote (q : RawQuote) : Quote :=
  ⟨q.symbol,
   py_or (py_or q.shortName q.longName) q.symbol,
   q.regularMarketPrice,
   q.regularMarketChange,
   q.regularMarketChangePercent,
   q.currency⟩

/-- The output dict of yf_quotes, `out[sym] = {...}` over the result list:
a Python dict modelled as its insertion sequence, where a later assignment
to the same key overwrites an earlier one. -/
def parse_quotes (data : List RawQuote) : List (Option String × Quote) :=
  data.map fun q => (q.symbol, mk_quote q)

/-- Python dict.get on the insertion sequence: the value of the last
assignment to the key, if any. -/
def dict_get (m : List (Option String × Quote)) (k : Option String) : Option Quote :=
  (m.reverse.find? fun p => p.1 == k).map (fun p => p.2)

/-- Python str.strip(): drop leading and trailing whitespace (modelled with
Char.isWhitespace; Python strips the full Unicode whitespace class, which
agrees on every character appearing in the theorems below). -/
def py_strip (s : String) : String :=
  String.mk (((s.data.dropWhile Char.isWhitespace).reverse.dropWhile
    Char.isWhitespace).reverse)

/-- news_for(ticker, limit): take the first limit feed entries, read each
title (`e.get("title") or ""`), strip it, and keep the non-empty ones in
feed order. -/
def news_for (entries : List (Option String)) (limit : Nat) : List String :=
  (entries.take limit).filterMap fun t =>
    let s := py_strip (t.getD "")
    if s = "" then none else some s

/-- Models Python str(price) on a JSON number.  The exact digits are
irrelevant to every theorem below; only the shape of the line matters. -/
def str_float (x : Float) : String := toString x

/-- Models the Python format spec `+.2f` (sign always shown, two decimal
digits).  As with str_float, no theorem depends on the digits. -/
def fmt_plus_2f (x : Float) : String :=
  let sign := if x < 0 then "-" else "+"
  let cents := (x.abs * 100 + 0.5).floor.toUInt64.toNat
  sign ++ toString (cents / 100) ++ "." ++
    (if cents % 100 < 10 then "0" else "") ++ toString (cents % 100)

/-- fmt_line(sym, q): a falsy quote (absent from the dict), an absent price
or an absent change percentage renders the no-data placeholder; otherwise
the data line. -/
def fmt_line (sym : String) (q : Option Quote) : String :=
  match q with
  | none => "- " ++ sym ++ ": (no data)"
  | some q =>
    match q.price, q.change_pct with
    | some price, some cpct =>
      "- " ++ sym ++ ": " ++ str_float price ++ " " ++ (q.currency.getD "") ++
        " (" ++ fmt_plus_2f cpct ++ "%)"
    | _, _ => "- " ++ sym ++ ": (no data)"

/-- Outcome of the OpenAI call in ai_summarize: the client constructor or
the responses.create call raised, or a response came back whose output_text
may be None. -/
inductive AiCall where
  | raised
  | ok (outputText : Option String)

/-- ai_summarize(raw_text), with its two effects passed in: the value of
os.getenv for the API key (None when unset) and the outcome of the OpenAI
call.  `if not api_key` is true for None and for the empty string; the
returned text is `(resp.output_text or "").strip()`, and an empty result or
any exception yields None (no AI) rather than raising. -/
def ai_summarize (apiKey : Option String) (call : AiCall) : Option String :=
  match apiKey with
  | none => none
  | some k =>
    if k = "" then none
    else
      match call with
      | .raised => none
      | .ok outputText =>
        let text := py_strip (outputText.getD "")
        if text = "" then none else some text

/-- Title line of the report. -/
def header_line : String := "📊 Weekly Market & Economy Update"

/-- The warning line appended when the batched quote fetch failed. -/
def warn_line : String :=
  "⚠️ Note: price data fetch failed (rate-limit/network). Headlines still included."

/-- Holdings section body (under the Your Stocks heading): one placeholder
line when the ticker list is empty, otherwise one fmt_line per ticker. -/
def holdings_block (quotes : List (Option String × Quote)) (tickers : List String) :
    List String :=
  if tickers = [] then ["- (no tickers in holdings.json)"]
  else tickers.map fun t => fmt_line t (dict_get quotes (some t))

/-- Indices section body (under the Market Pulse heading). -/
def indices_block (quotes : List (Option String × Quote)) (indices : List String) :
    List String :=
  if indices = [] then ["- (no indices in holdings.json)"]
  else indices.map fun i => fmt_line i (dict_get quotes (some i))

/-- Outcome of the news_for call for one ticker: it raised somewhere in
fetching or parsing, or it produced a feed entry list. -/
inductive NewsOutcome where
  | raised
  | feed (entries : List (Option String))

/-- Headlines section body: one placeholder line when the ticker list is
empty; otherwise, per ticker: the news-fetch-failed line when news_for
raised, the no-headlines line when it returned an empty list, and one line
per headline otherwise. -/
def headlines_block (news : String → NewsOutcome) (tickers : List String) : List String :=
  if tickers = [] then ["- (no tickers to fetch news for)"]
  else tickers.flatMap fun t =>
    match news t with
    | .raised => ["- " ++ t ++ ": (news fetch failed)"]
    | .feed entries =>
      let hs := news_for entries 3
      if hs = [] then ["- " ++ t ++ ": (no headlines found)"]
      else hs.map fun h => "- " ++ t ++ ": " ++ h

/-- The quotes dict held by main, given the outcome of the one batched
quote fetch: error means yf_quotes raised after exhausting retries and was
caught at the call site, leaving the dict empty. -/
def quotes_of : Except Unit (List RawQuote) → List (Option String × Quote)
  | .ok data => parse_quotes data
  | .error _ => []

/-- The yahoo_failed flag: true exactly when yf_quotes raised. -/
def yahoo_failed : Except Unit (List RawQuote) → Bool
  | .ok _ => false
  | .error _ => true

/-- All lines of the report, given the generation timestamp, the watchlist,
the outcome of the one batched quote fetch, and the outcome of each
per-ticker news fetch.  The warning section is the two trailing lines
appended exactly when yahoo_failed is true. -/
def compose_lines (nowUtc : String) (tickers indices : List String)
    (quoteFetch : Except Unit (List RawQuote)) (news : String → NewsOutcome) :
    List String :=
  [header_line, "🕒 Generated: " ++ nowUtc, "", "💼 Your Stocks"]
    ++ holdings_block (quotes_of quoteFetch) tickers
    ++ ["", "🌍 Market Pulse"]
    ++ indices_block (quotes_of quoteFetch) indices
    ++ ["", "📰 Headlines"]
    ++ headlines_block news tickers
    ++ (if yahoo_failed quoteFetch then ["", warn_line] else [])

/-- Python string slicing `s[:n]`: the first n code points of s. -/
def cap (n : Nat) (s : String) : String := String.mk (s.data.take n)

/-- `raw_msg = "\n".join(lines)[:3800]`. -/
def raw_msg (lines : List String) : String :=
  cap 3800 (String.intercalate "\n" lines)

/-- The hint appended to the raw report when no summary exists. -/
def tip_line : String := "\n\nTip: Add OPENAI_API_KEY secret to enable AI summary."

/-- The final message before the last cap.  Python `if summary:` is false
for None and for the empty string; with a summary, the composed message is
the AI brief header, the summary, a separator, and the details block (the
raw message further capped to 2000 characters); without one, the raw
message plus the tip line. -/
def final_pre_cap (raw : String) (summary : Option String) : String :=
  match summary with
  | some s =>
    if s = "" then raw ++ tip_line
    else "🧠 AI Weekly Brief\n" ++ s ++ "\n\n—\n📌 Details\n" ++ cap 2000 raw
  | none => raw ++ tip_line

/-- `final_msg = final_msg[:3800]`: the delivered text. -/
def final_msg (raw : String) (summary : Option String) : String :=
  cap 3800 (final_pre_cap raw summary)

/-- The tail of main end to end: join the composed lines, cap at 3800,
summarize, compose the final message, cap at 3800. -/
def pipeline_final (lines : List String) (apiKey : Option String) (call : AiCall) :
    String :=
  final_msg (raw_msg lines) (ai_summarize apiKey call)

/-- Modelled from words of the specification alone, for comparison with the
source deduplication: duplicates removed, each distinct symbol kept exactly
once in first-occurrence order, with no other filtering. -/
def spec_dedup_aux (seen : List String) : List String → List String
  | [] => []
  | s :: rest =>
    if s ∈ seen then spec_dedup_aux seen rest
    else s :: spec_dedup_aux (s :: seen) rest

/-- The specification-words deduplication with an empty seen set. -/
def spec_dedup (symbols : List String) : List String :=
  spec_dedup_aux [] symbols

example : batch_query ["AAPL", "", "MSFT", "AAPL"] = "AAPL,MSFT" := by decide

example : fmt_line "AAPL" none = "- AAPL: (no data)" := by decide

example : get_with_retry (fun _ => .resp ⟨429, "slow"⟩) = .raised none := by decide

example :
    get_with_retry (fun i => if i < 2 then .resp ⟨429, "slow"⟩ else .resp ⟨200, "ok"⟩) =
      .success ⟨200, "ok"⟩ := by decide

example :
    get_with_retry (fun i => if i = 0 then .raises (.netError "boom") else .resp ⟨429, "s"⟩) =
      .raised (some (.netError "boom")) := by decide

/-! ### Lemmas about the retry loop -/

theorem retry_loop_success (attempts : Nat → Attempt) (r : HResp)
    (hlo : 200 ≤ r.status) (hhi : r.status < 300) :
    ∀ (k i n : Nat) (lastExc : Option PyExc), k < n →
      (∀ j, j < k → attempt_status (attempts (i + j)) = some 429) →
      attempts (i + k) = .resp r →
      retry_loop attempts lastExc i n = .success r := by
  intro k
  induction k with
  | zero =>
    intro i n lastExc hn h429 hsucc
    cases n with
    | zero => omega
    | succ m =>
      rw [Nat.add_zero] at hsucc
      have h1 : r.status ≠ 429 := by omega
      have h2 : ¬ 400 ≤ r.status := by omega
      simp [retry_loop, hsucc, h1, h2]
  | succ k ih =>
    intro i n lastExc hn h429 hsucc
    cases n with
    | zero => omega
    | succ m =>
      have h0 : attempt_status (attempts (i + 0)) = some 429 := h429 0 (Nat.succ_pos k)
      rw [Nat.add_zero] at h0
      cases ha : attempts i with
      | raises e =>
        rw [ha] at h0
        exact absurd h0 (by simp [attempt_status])
      | resp r0 =>
        rw [ha] at h0
        have hst : r0.status = 429 := by simpa [attempt_status] using h0
        have step : retry_loop attempts lastExc i (m + 1) =
            retry_loop attempts lastExc (i + 1) m := by
          simp [retry_loop, ha, hst]
        rw [step]
        refine ih (i + 1) m lastExc (by omega) ?_ ?_
        · intro j hj
          have hx := h429 (j + 1) (by omega)
          have e : i + (j + 1) = i + 1 + j := by omega
          rw [e] at hx
          exact hx
        · have e : i + (k + 1) = i + 1 + k := by omega
          rw [e] at hsucc
          exact hsucc

/-- C6: if fewer than six consecutive attempts observe an HTTP 429 response
and the next attempt returns a 2xx response, get_with_retry returns that
successful response and surfaces no error. -/
theorem claim_C6 (attempts : Nat → Attempt) (k : Nat) (r : HResp)
    (hk : k < max_tries)
    (h429 : ∀ i, i < k → attempt_status (attempts i) = some 429)
    (hsucc : attempts k = .resp r)
    (hlo : 200 ≤ r.status) (hhi : r.status < 300) :
    get_with_retry attempts = .success r := by
  refine retry_loop_success attempts r hlo hhi k 0 max_tries none hk ?_ ?_
  · intro j hj
    rw [Nat.zero_add]
    exact h429 j hj
  · rw [Nat.zero_add]
    exact hsucc

/-- Witness for C6: two 429 responses followed by a 200 response. -/
theorem claim_C6_witness :
    (2 < max_tries) ∧
    (∀ i, i < 2 →
      attempt_status ((fun i => if i < 2 then Attempt.resp ⟨429, "slow"⟩
        else Attempt.resp ⟨200, "ok"⟩) i) = some 429) ∧
    get_with_retry (fun i => if i < 2 then .resp ⟨429, "slow"⟩ else .resp ⟨200, "ok"⟩) =
      .success ⟨200, "ok"⟩ :=
  ⟨by decide, by decide,
    claim_C6 _ 2 ⟨200, "ok"⟩ (by decide) (by decide) (by decide) (by decide) (by decide)⟩

/-- C2, evaluated at the failing input: when every one of the six attempts
observes an HTTP 429 response, the loop never records a cause (the 429
branch continues without touching last_exc), so the function reaches
`raise last_exc` with last_exc still None — in Python a TypeError carrying
no cause, not a retryable error carrying the last observed one. -/
theorem claim_C2 :
    get_with_retry (fun _ => .resp ⟨429, "Too Many Requests"⟩) = .raised none := by
  decide

/-! ### Lemmas about deduplication -/

theorem dedup_aux_eq_spec (l : List String) :
    ∀ seen, dedup_aux seen l = spec_dedup_aux seen (l.filter fun s => s ≠ "") := by
  induction l with
  | nil => intro seen; rfl
  | cons s rest ih =>
    intro seen
    by_cases hs : s = ""
    · subst hs
      simp [dedup_aux, List.filter_cons, ih]
    · by_cases hm : s ∈ seen
      · simp [dedup_aux, List.filter_cons, hs, hm, spec_dedup_aux, ih]
      · simp [dedup_aux, List.filter_cons, hs, hm, spec_dedup_aux, ih]

/-- The deduplicated batch list never contains the empty string. -/
theorem empty_not_mem_dedup (l : List String) :
    ∀ seen, "" ∉ dedup_aux seen l := by
  induction l with
  | nil =>
    intro seen h
    exact absurd h (List.not_mem_nil _)
  | cons s rest ih =>
    intro seen h
    simp only [dedup_aux] at h
    by_cases hs : s = ""
    · rw [if_pos hs] at h
      exact ih seen h
    · rw [if_neg hs] at h
      by_cases hm : s ∈ seen
      · rw [if_pos hm] at h
        exact ih seen h
      · rw [if_neg hm] at h
        rcases List.mem_cons.mp h with h1 | h2
        · exact hs h1.symm
        · exact ih (s :: seen) h2

/-- C3 as stated is false: with the symbol sequence ["", "AAPL"], the query
the claim predicts keeps the distinct empty symbol (giving ",AAPL"), but
the code filters falsy entries first and produces "AAPL". -/
theorem claim_C3_counterexample :
    ¬ (batch_query ["", "AAPL"] =
        String.intercalate "," (spec_dedup ["", "AAPL"])) := by
  decide

/-- C3 amended: the query parameter is the comma-join of the input symbols
with empty (falsy) entries removed first, and duplicates removed so that
each remaining distinct symbol appears exactly once in first-occurrence
order. -/
theorem claim_C3 (symbols : List String) :
    batch_query symbols =
      String.intercalate "," (spec_dedup (symbols.filter fun s => s ≠ "")) := by
  unfold batch_query dedup_symbols spec_dedup
  rw [dedup_aux_eq_spec]

/-- C10: an empty (falsy) watchlist entry is filtered out of the batch
before deduplication, so it never appears among the batched query symbols;
and, whenever the parsed quote dict only holds entries for symbols that
were actually batched, such an entry looks up to nothing and renders as its
no-data placeholder line. -/
theorem claim_C10 :
    (∀ symbols : List String, "" ∉ dedup_symbols symbols) ∧
    (∀ (symbols : List String) (data : List RawQuote),
      (∀ q ∈ data, ∃ s ∈ dedup_symbols symbols, q.symbol = some s) →
      fmt_line "" (dict_get (parse_quotes data) (some "")) = "- : (no data)") := by
  constructor
  · intro symbols
    exact empty_not_mem_dedup symbols []
  · intro symbols data hdata
    have hfind : (parse_quotes data).reverse.find? (fun p => p.1 == some "") = none := by
      rw [List.find?_eq_none]
      intro x hx
      rw [List.mem_reverse] at hx
      unfold parse_quotes at hx
      rcases List.mem_map.mp hx with ⟨q, hq, rfl⟩
      rcases hdata q hq with ⟨s, hsmem, hsym⟩
      simp only [hsym, beq_iff_eq, Option.some.injEq]
      intro hempty
      rw [hempty] at hsmem
      exact empty_not_mem_dedup symbols [] hsmem
    have hnone : dict_get (parse_quotes data) (some "") = none := by
      unfold dict_get
      rw [hfind]
      rfl
    rw [hnone]
    rfl

/-- Witness for C10: a one-entry response matching the one requested
symbol; the empty watchlist entry renders the placeholder. -/
theorem claim_C10_witness :
    (∀ q ∈ [(⟨some "AAPL", none, none, none, none, none, none⟩ : RawQuote)],
      ∃ s ∈ dedup_symbols ["AAPL", ""], q.symbol = some s) ∧
    fmt_line "" (dict_get (parse_quotes
      [(⟨some "AAPL", none, none, none, none, none, none⟩ : RawQuote)]) (some "")) =
      "- : (no data)" := by
  have h : ∀ q ∈ [(⟨some "AAPL", none, none, none, none, none, none⟩ : RawQuote)],
      ∃ s ∈ dedup_symbols ["AAPL", ""], q.symbol = some s := by
    intro q hq
    rcases List.mem_singleton.mp hq with rfl
    exact ⟨"AAPL", by decide, rfl⟩
  exact ⟨h, claim_C10.2 ["AAPL", ""] _ h⟩

/-- C5: a symbol absent from the quote map, or present with an absent price
or absent change percentage, renders exactly the no-data placeholder line;
and a nonempty symbol list yields exactly one rendered line per listed
symbol in each quotes section. -/
theorem claim_C5 :
    (∀ (sym : String) (oq : Option Quote),
      (oq = none ∨ ∃ q, oq = some q ∧ (q.price = none ∨ q.change_pct = none)) →
      fmt_line sym oq = "- " ++ sym ++ ": (no data)") ∧
    (∀ (quotes : List (Option String × Quote)) (tickers indices : List String),
      tickers ≠ [] → indices ≠ [] →
      (holdings_block quotes tickers).length = tickers.length ∧
      (indices_block quotes indices).length = indices.length) := by
  constructor
  · rintro sym oq (rfl | ⟨q, rfl, hq⟩)
    · rfl
    · obtain ⟨sy, nm, pr, ch, cp, cu⟩ := q
      cases pr <;> cases cp
      · rfl
      · rfl
      · rfl
      · exfalso
        simp only [] at hq
        rcases hq with h | h <;> exact Option.noConfusion h
  · intro quotes tickers indices ht hi
    constructor
    · simp [holdings_block, ht]
    · simp [indices_block, hi]

/-- Witness for C5: an absent symbol renders the placeholder, and singleton
watchlists render one line per symbol. -/
theorem claim_C5_witness :
    ((none : Option Quote) = none) ∧
    ((["AAPL"] : List String) ≠ []) ∧
    fmt_line "AAPL" none = "- " ++ "AAPL" ++ ": (no data)" ∧
    (holdings_block [] ["AAPL"]).length = (["AAPL"] : List String).length ∧
    (indices_block [] ["^GSPC"]).length = (["^GSPC"] : List String).length :=
  ⟨rfl, by decide,
   claim_C5.1 "AAPL" none (Or.inl rfl),
   (claim_C5.2 [] ["AAPL"] ["^GSPC"] (by decide) (by decide)).1,
   (claim_C5.2 [] ["AAPL"] ["^GSPC"] (by decide) (by decide)).2⟩

/-- C7: with an empty tickers sequence, the holdings section body is
exactly one placeholder line and the headlines section body is exactly one
placeholder line, whatever the quote map and the news outcomes are. -/
theorem claim_C7 (quotes : List (Option String × Quote)) (news : String → NewsOutcome) :
    holdings_block quotes [] = ["- (no tickers in holdings.json)"] ∧
    headlines_block news [] = ["- (no tickers to fetch news for)"] :=
  ⟨rfl, rfl⟩

/-! ### String helpers -/

theorem str_append_assoc (a b c : String) : (a ++ b) ++ c = a ++ (b ++ c) := by
  cases a with
  | mk la =>
    cases b with
    | mk lb =>
      cases c with
      | mk lc =>
        exact congrArg String.mk (List.append_assoc la lb lc)

theorem head_append_of_head (s t : String) (c : Char) (hs : s.data.head? = some c) :
    (s ++ t).data.head? = some c := by
  rw [String.data_append]
  cases hd : s.data with
  | nil =>
    rw [hd] at hs
    exact absurd hs (by simp)
  | cons a as =>
    rw [hd] at hs
    simpa using hs

theorem warn_head : warn_line.data.head? = some '⚠' := rfl

theorem ne_warn_of_head (l : String) (c : Char) (hl : l.data.head? = some c)
    (hc : c ≠ '⚠') : l ≠ warn_line := by
  intro h
  rw [h, warn_head] at hl
  exact hc (Option.some.inj hl).symm

/-- Every line that fmt_line produces starts with a dash. -/
theorem fmt_line_head (sym : String) (oq : Option Quote) :
    (fmt_line sym oq).data.head? = some '-' := by
  cases oq with
  | none =>
    apply head_append_of_head
    apply head_append_of_head
    rfl
  | some q =>
    obtain ⟨sy, nm, pr, ch, cp, cu⟩ := q
    cases pr <;> cases cp <;>
      · repeat apply head_append_of_head
        rfl

theorem holdings_block_head (quotes : List (Option String × Quote))
    (tickers : List String) :
    ∀ l ∈ holdings_block quotes tickers, l.data.head? = some '-' := by
  intro l hl
  unfold holdings_block at hl
  by_cases ht : tickers = []
  · rw [if_pos ht] at hl
    rcases List.mem_singleton.mp hl with rfl
    rfl
  · rw [if_neg ht] at hl
    rcases List.mem_map.mp hl with ⟨t, _, rfl⟩
    exact fmt_line_head t _

theorem indices_block_head (quotes : List (Option String × Quote))
    (indices : List String) :
    ∀ l ∈ indices_block quotes indices, l.data.head? = some '-' := by
  intro l hl
  unfold indices_block at hl
  by_cases hi : indices = []
  · rw [if_pos hi] at hl
    rcases List.mem_singleton.mp hl with rfl
    rfl
  · rw [if_neg hi] at hl
    rcases List.mem_map.mp hl with ⟨i, _, rfl⟩
    exact fmt_line_head i _

theorem headlines_block_head (news : String → NewsOutcome) (tickers : List String) :
    ∀ l ∈ headlines_block news tickers, l.data.head? = some '-' := by
  intro l hl
  unfold headlines_block at hl
  by_cases ht : tickers = []
  · rw [if_pos ht] at hl
    rcases List.mem_singleton.mp hl with rfl
    rfl
  · rw [if_neg ht] at hl
    rcases List.mem_flatMap.mp hl with ⟨t, _, hlt⟩
    cases hn : news t with
    | raised =>
      simp only [hn] at hlt
      rcases List.mem_singleton.mp hlt with rfl
      apply head_append_of_head
      apply head_append_of_head
      rfl
    | feed entries =>
      simp only [hn] at hlt
      by_cases hh : news_for entries 3 = []
      · rw [if_pos hh] at hlt
        rcases List.mem_singleton.mp hlt with rfl
        apply head_append_of_head
        apply head_append_of_head
        rfl
      · rw [if_neg hh] at hlt
        rcases List.mem_map.mp hlt with ⟨h, _, rfl⟩
        apply head_append_of_head
        apply head_append_of_head
        apply head_append_of_head
        rfl

/-- C1: when the batched quote fetch fails, the composer still emits the
no-data placeholder line for every ticker and every index, and the report
ends with the two warning lines; when the quote fetch succeeds, the warning
line appears nowhere in the report. -/
theorem claim_C1 :
    (∀ (now : String) (tickers indices : List String) (news : String → NewsOutcome),
      tickers ≠ [] → indices ≠ [] →
      compose_lines now tickers indices (.error ()) news =
        [header_line, "🕒 Generated: " ++ now, "", "💼 Your Stocks"]
          ++ tickers.map (fun t => "- " ++ t ++ ": (no data)")
          ++ ["", "🌍 Market Pulse"]
          ++ indices.map (fun i => "- " ++ i ++ ": (no data)")
          ++ ["", "📰 Headlines"]
          ++ headlines_block news tickers
          ++ ["", warn_line]) ∧
    (∀ (now : String) (tickers indices : List String) (data : List RawQuote)
      (news : String → NewsOutcome),
      warn_line ∉ compose_lines now tickers indices (.ok data) news) := by
  constructor
  · intro now tickers indices news ht hi
    unfold compose_lines quotes_of yahoo_failed holdings_block indices_block
    rw [if_neg ht, if_neg hi]
    rfl
  · intro now tickers indices data news hl
    have hA : warn_line ∉ [header_line, "🕒 Generated: " ++ now, "", "💼 Your Stocks"] := by
      intro h
      rcases List.mem_cons.mp h with h | h
      · exact absurd h (by decide)
      rcases List.mem_cons.mp h with h | h
      · exact (ne_warn_of_head ("🕒 Generated: " ++ now) '🕒'
          (head_append_of_head "🕒 Generated: " now '🕒' rfl) (by decide)) h.symm
      rcases List.mem_cons.mp h with h | h
      · exact absurd h (by decide)
      rcases List.mem_cons.mp h with h | h
      · exact absurd h (by decide)
      · exact absurd h (List.not_mem_nil _)
    have hH : warn_line ∉ holdings_block (quotes_of (.ok data)) tickers := by
      intro h
      have hd := holdings_block_head _ _ _ h
      rw [warn_head] at hd
      exact absurd hd (by decide)
    have hI : warn_line ∉ indices_block (quotes_of (.ok data)) indices := by
      intro h
      have hd := indices_block_head _ _ _ h
      rw [warn_head] at hd
      exact absurd hd (by decide)
    have hN : warn_line ∉ headlines_block news tickers := by
      intro h
      have hd := headlines_block_head _ _ _ h
      rw [warn_head] at hd
      exact absurd hd (by decide)
    have hM1 : warn_line ∉ (["", "🌍 Market Pulse"] : List String) := by decide
    have hM2 : warn_line ∉ (["", "📰 Headlines"] : List String) := by decide
    have hW : warn_line ∉
        (if yahoo_failed (.ok data) then ["", warn_line] else ([] : List String)) := by
      rw [show yahoo_failed (Except.ok data) = false from rfl]
      simp
    unfold compose_lines at hl
    simp only [List.mem_append] at hl
    tauto

/-- Witness for C1: one ticker and one index, failed quote fetch. -/
theorem claim_C1_witness :
    ((["AAPL"] : List String) ≠ []) ∧ ((["^GSPC"] : List String) ≠ []) ∧
    compose_lines "2025-01-03 10:00 UTC" ["AAPL"] ["^GSPC"] (.error ())
        (fun _ => .feed []) =
      [header_line, "🕒 Generated: " ++ "2025-01-03 10:00 UTC", "", "💼 Your Stocks"]
        ++ (["AAPL"] : List String).map (fun t => "- " ++ t ++ ": (no data)")
        ++ ["", "🌍 Market Pulse"]
        ++ (["^GSPC"] : List String).map (fun i => "- " ++ i ++ ": (no data)")
        ++ ["", "📰 Headlines"]
        ++ headlines_block (fun _ => .feed []) ["AAPL"]
        ++ ["", warn_line] :=
  ⟨by decide, by decide,
    claim_C1.1 "2025-01-03 10:00 UTC" ["AAPL"] ["^GSPC"] (fun _ => .feed [])
      (by decide) (by decide)⟩

/-! ### Output budgeting -/

theorem cap_length_le (n : Nat) (s : String) : (cap n s).length ≤ n := by
  show (s.data.take n).length ≤ n
  rw [List.length_take]
  exact Nat.min_le_left _ _

theorem cap_append (n : Nat) (a b : String) (h : a.length ≤ n) :
    cap n (a ++ b) = a ++ cap (n - a.length) b := by
  cases a with
  | mk la =>
    cases b with
    | mk lb =>
      show String.mk ((la ++ lb).take n) = _
      rw [List.take_append_eq_append_take, List.take_of_length_le h]
      rfl

/-- C4: the delivered message always fits in 3800 characters, for every raw
text and summary, and in particular for the full pipeline on arbitrarily
long inputs. -/
theorem claim_C4 (raw : String) (summary : Option String) (lines : List String)
    (apiKey : Option String) (call : AiCall) :
    (final_msg raw summary).length ≤ 3800 ∧
    (pipeline_final lines apiKey call).length ≤ 3800 :=
  ⟨cap_length_le 3800 _, cap_length_le 3800 _⟩

/-- C8: with a non-empty summary, the message before the final cap is
exactly the AI-brief composition whose details block is the first 2000
characters of the (already capped) raw report, and the delivered message
starts with the AI-brief header. -/
theorem claim_C8 (lines : List String) (s : String) (h : s ≠ "") :
    final_pre_cap (raw_msg lines) (some s) =
      "🧠 AI Weekly Brief\n" ++ s ++ "\n\n—\n📌 Details\n" ++ cap 2000 (raw_msg lines) ∧
    ∃ rest, final_msg (raw_msg lines) (some s) = "🧠 AI Weekly Brief" ++ rest := by
  constructor
  · simp [final_pre_cap, h]
  · have e0 : ("🧠 AI Weekly Brief\n" : String) = "🧠 AI Weekly Brief" ++ "\n" := by
      decide
    refine ⟨cap (3800 - ("🧠 AI Weekly Brief" : String).length)
      ("\n" ++ (s ++ ("\n\n—\n📌 Details\n" ++ cap 2000 (raw_msg lines)))), ?_⟩
    unfold final_msg
    simp only [final_pre_cap, if_neg h]
    rw [e0, str_append_assoc, str_append_assoc, str_append_assoc]
    exact cap_append 3800 "🧠 AI Weekly Brief" _ (by decide)

/-- Witness for C8. -/
theorem claim_C8_witness :
    (("brief text" : String) ≠ "") ∧
    (final_pre_cap (raw_msg ["report line"]) (some "brief text") =
      "🧠 AI Weekly Brief\n" ++ "brief text" ++ "\n\n—\n📌 Details\n" ++
        cap 2000 (raw_msg ["report line"]) ∧
    ∃ rest, final_msg (raw_msg ["report line"]) (some "brief text") =
      "🧠 AI Weekly Brief" ++ rest) :=
  ⟨by decide, claim_C8 ["report line"] "brief text" (by decide)⟩

/-- C9: the summarizer yields no summary (rather than raising) when no API
credential is configured (unset or empty), when the generation call raises,
and when the returned text is empty after stripping (including an absent
output_text); and with no summary the pipeline delivers the raw report plus
the tip line, capped. -/
theorem claim_C9 (call : AiCall) (k t raw : String) :
    ai_summarize none call = none ∧
    ai_summarize (some "") call = none ∧
    ai_summarize (some k) .raised = none ∧
    ai_summarize (some k) (.ok none) = none ∧
    (py_strip t = "" → ai_summarize (some k) (.ok (some t)) = none) ∧
    final_msg raw none = cap 3800 (raw ++ tip_line) := by
  refine ⟨rfl, rfl, ?_, ?_, ?_, rfl⟩
  · by_cases hk : k = "" <;> simp [ai_summarize, hk]
  · by_cases hk : k = ""
    · simp [ai_summarize, hk]
    · have e : py_strip "" = "" := rfl
      simp [ai_summarize, hk, e]
  · intro hstrip
    by_cases hk : k = ""
    · simp [ai_summarize, hk]
    · simp [ai_summarize, hk, hstrip]

/-- Witness for C9: a whitespace-only generation result yields no summary. -/
theorem claim_C9_witness :
    (py_strip " " = "") ∧ ai_summarize (some "sk-key") (.ok (some " ")) = none :=
  ⟨by decide, (claim_C9 (.raised) "sk-key" " " "").2.2.2.2.1 (by decide)⟩
